import Mathlib

/-!
Shallow embedding of the MacMuteOnLocation decision core (src/main.py).

The application keeps its state in instance attributes of `LocationMenubarApp`
(`is_active`, `is_muted`, `inside_target_zone`, `current_location`,
`target_locations`, `target_location_coords`, `location_check_interval`, menu
item titles, and the on-disk settings file written by
`save_target_locations`).  We embed that state as the structure `AppState` and
each callback as a pure function on `AppState`, returning in addition the
observable effects that matter for the claims: the mute/unmute shell commands
issued to the audio controller (`Cmd`), the geocode requests fired, and the
alert messages shown to the user.

Geographic coordinates and distances are Python floats computed with
transcendental functions (`math.sin`, `math.asin`, ...); we abstract the
distance computation as a parameter `dist : Dist` (rational-valued), so that
every property about the zone-membership loop and the mute decision engine is
proved for an arbitrary distance function, the haversine of
`calculate_distance` included.
-/

/-- A mute or unmute command sent to the system audio controller via
`osascript` (`set volume with/without output muted`). -/
inductive Cmd where
  | mute
  | unmute
deriving DecidableEq, Repr

/-- One entry of `self.target_locations`: a dict `{address, radius}` with the
radius an `int` in meters (source: `add_location` / `edit_location`). -/
structure TargetZone where
  address : String
  radius : Int
deriving DecidableEq, Repr

/-- `self.target_location_coords`: a dict from address to `(lat, lon)`. -/
abbrev CoordMap := List (String × (ℚ × ℚ))

/-- Dict lookup, `coords[address]` / `address in coords`. -/
def dictLookup (m : CoordMap) (k : String) : Option (ℚ × ℚ) :=
  match m with
  | [] => none
  | (k0, v0) :: rest => if k0 = k then some v0 else dictLookup rest k

/-- Dict assignment, `coords[address] = (lat, lon)`: overwrite the key if
present, otherwise append. -/
def dictInsert (m : CoordMap) (k : String) (v : ℚ × ℚ) : CoordMap :=
  match m with
  | [] => [(k, v)]
  | (k0, v0) :: rest =>
      if k0 = k then (k, v) :: rest else (k0, v0) :: dictInsert rest k v

/-- Dict deletion, `del coords[address]`. -/
def dictErase (m : CoordMap) (k : String) : CoordMap :=
  m.filter (fun kv => kv.1 ≠ k)

/-- The mutable application state of `LocationMenubarApp`, together with the
settings file written by `save_target_locations` (`saved_file = none` models a
file not yet written by this process). -/
structure AppState where
  is_active : Bool
  is_muted : Bool
  inside_target_zone : Bool
  current_location : Option (ℚ × ℚ)
  target_locations : List TargetZone
  target_location_coords : CoordMap
  location_check_interval : Int
  mute_item_title : String
  status_item_title : String
  saved_file : Option (List TargetZone × Int × Bool)
deriving DecidableEq, Repr

/-- The state set up by `LocationMenubarApp.__init__` before
`load_target_locations` runs (main.py lines 36–56). -/
def initState : AppState :=
  { is_active := false
    is_muted := false
    inside_target_zone := false
    current_location := none
    target_locations := []
    target_location_coords := []
    location_check_interval := 300
    mute_item_title := "🔇 Mute Mac"
    status_item_title := "🔴 Status: Inactive"
    saved_file := none }

/-- `update_status`: refresh the status menu item from `is_active`. -/
def update_status (st : AppState) : AppState :=
  if st.is_active then { st with status_item_title := "🟢 Status: Active" }
  else { st with status_item_title := "🔴 Status: Inactive" }

/-- `save_target_locations`: write locations, check interval and active flag
to the settings file. -/
def save_target_locations (st : AppState) : AppState :=
  let file := (st.target_locations, st.location_check_interval, st.is_active)
  { st with saved_file := some file }

/-- The title given to the mute menu item for a given `is_muted` value
(shared by `mute_sync_callback` and `auto_mute`). -/
def mute_title (muted : Bool) : String :=
  if muted then "🔊 Unmute Mac" else "🔇 Mute Mac"

/-- `manual_mute_toggle`: issue the unmute command if `is_muted` is true and
the mute command otherwise.  Nothing else happens: the internal `is_muted`
flag is not written by this callback. -/
def manual_mute_toggle (st : AppState) : AppState × List Cmd :=
  if st.is_muted then (st, [Cmd.unmute]) else (st, [Cmd.mute])

/-- `mute_sync_callback`: read the actual system mute flag (`system_muted`,
obtained in the source by an `osascript` query); if it differs from
`is_muted`, overwrite `is_muted` and refresh the toggle label.  No mute or
unmute command is issued. -/
def mute_sync_callback (st : AppState) (system_muted : Bool) :
    AppState × List Cmd :=
  if st.is_muted ≠ system_muted then
    let st1 := { st with is_muted := system_muted }
    ({ st1 with mute_item_title := mute_title st1.is_muted }, [])
  else (st, [])

/-- `auto_mute`: issue the command for `should_mute`, then update `is_muted`
and the toggle label if they changed. -/
def auto_mute (st : AppState) (should_mute : Bool) : AppState × List Cmd :=
  let cmds := [if should_mute then Cmd.mute else Cmd.unmute]
  if st.is_muted ≠ should_mute then
    let st1 := { st with is_muted := should_mute }
    ({ st1 with mute_item_title := mute_title st1.is_muted }, cmds)
  else (st, cmds)

/-- The distance computation of `calculate_distance` (haversine over floats),
abstracted as a function from the two (lat, lon) pairs to meters. -/
abbrev DistFn := ℚ → ℚ → ℚ → ℚ → ℚ

/-- A concrete distance function used to instantiate theorems on closed
inputs. -/
def distConst : DistFn := fun _ _ _ _ => 0

/-- The `for target in self.app.target_locations` loop of
`check_target_locations`: returns the boolean `currently_inside_any_target`
and the list of addresses for which a geocode request is fired (those visited
with no cached coordinate).  A zone whose distance is within its radius stops
the loop (`break`). -/
def scan_zones (dist : DistFn) (coords : CoordMap) (lat lon : ℚ) :
    List TargetZone → Bool × List String
  | [] => (false, [])
  | t :: rest =>
      match dictLookup coords t.address with
      | some (tlat, tlon) =>
          if dist lat lon tlat tlon ≤ (t.radius : ℚ) then (true, [])
          else scan_zones dist coords lat lon rest
      | none =>
          let r := scan_zones dist coords lat lon rest
          (r.1, t.address :: r.2)

/-- Result of one evaluation cycle: the new state, the audio commands issued,
and the geocode requests fired. -/
structure CheckResult where
  state : AppState
  cmds : List Cmd
  geocodeRequests : List String
deriving DecidableEq, Repr

/-- `LocationDelegate.check_target_locations`: one evaluation cycle of the
decision engine at position (lat, lon).  Returns early when inactive or when
no target zone is configured; otherwise recomputes `inside_target_zone` and
enforces the mute state through `auto_mute`. -/
def check_target_locations (dist : DistFn) (st : AppState) (lat lon : ℚ) :
    CheckResult :=
  if st.is_active = false then ⟨st, [], []⟩
  else if st.target_locations = [] then ⟨st, [], []⟩
  else
    let scanned := scan_zones dist st.target_location_coords lat lon
      st.target_locations
    let st1 := { st with inside_target_zone := scanned.1 }
    if st1.inside_target_zone then
      if st1.is_muted = false then
        let r := auto_mute st1 true
        ⟨r.1, r.2, scanned.2⟩
      else ⟨st1, [], scanned.2⟩
    else
      if st1.is_muted = true then
        let r := auto_mute st1 false
        ⟨r.1, r.2, scanned.2⟩
      else ⟨st1, [], scanned.2⟩

/-- Outcome delivered to the completion handler of
`geocodeAddressString_completionHandler_`: either an error / empty placemark
list, or a resolved coordinate. -/
inductive GeocodeOutcome where
  | failure
  | success (lat lon : ℚ)
deriving DecidableEq, Repr

/-- The completion handler `geocode_callback` inside
`geocode_target_location`, applied when the asynchronous geocode result for
`address` arrives.  On success it stores the coordinate in
`target_location_coords` and, when a current location is known, re-runs
`check_target_locations`. -/
def geocode_callback (dist : DistFn) (st : AppState) (address : String)
    (res : GeocodeOutcome) : CheckResult :=
  match res with
  | GeocodeOutcome.failure => ⟨st, [], []⟩
  | GeocodeOutcome.success lat lon =>
      let coords := dictInsert st.target_location_coords address (lat, lon)
      let st1 := { st with target_location_coords := coords }
      match st1.current_location with
      | some (clat, clon) => check_target_locations dist st1 clat clon
      | none => ⟨st1, [], []⟩

/-- The `settings` object of the new on-disk format: both keys optional
(`data.get('settings', {}).get(..., default)`). -/
structure SettingsObj where
  check_interval : Option Int
  is_active : Option Bool
deriving DecidableEq, Repr

/-- Parsed content of `target_locations.json`: either the old format (a bare
list of locations) or the new format (a dict with optional `locations` and
`settings` keys). -/
inductive SettingsData where
  | list (locs : List TargetZone)
  | dict (locations : Option (List TargetZone)) (settings : Option SettingsObj)
deriving DecidableEq, Repr

/-- The `for location in self.target_locations` loop at the end of
`load_target_locations`: fire a geocode request for every address with no
cached coordinate. -/
def geocode_missing (coords : CoordMap) : List TargetZone → List String
  | [] => []
  | t :: rest =>
      if (dictLookup coords t.address).isNone then
        t.address :: geocode_missing coords rest
      else geocode_missing coords rest

/-- `load_target_locations`, on a settings file that exists and parses as
`data`: populate `target_locations`; in the dict format also read
`check_interval` (default 30) and `is_active` (default false) and refresh the
status item; finally request geocoding of every address without a cached
coordinate.  Returns the new state and the geocode requests fired. -/
def load_target_locations (st : AppState) (data : SettingsData) :
    AppState × List String :=
  match data with
  | SettingsData.list locs =>
      let st1 := { st with target_locations := locs }
      (st1, geocode_missing st1.target_location_coords st1.target_locations)
  | SettingsData.dict locations settings =>
      let st1 := { st with target_locations := locations.getD [] }
      let saved_interval :=
        ((settings.getD ⟨none, none⟩).check_interval).getD 30
      let st2 := { st1 with location_check_interval := saved_interval }
      let saved_status := ((settings.getD ⟨none, none⟩).is_active).getD false
      let st3 := update_status { st2 with is_active := saved_status }
      (st3, geocode_missing st3.target_location_coords st3.target_locations)

/-- Drop leading whitespace characters from a character list. -/
def dropWhitespace : List Char → List Char
  | [] => []
  | c :: cs => if c.isWhitespace then dropWhitespace cs else c :: cs

/-- Python's `str.strip()`: remove leading and trailing whitespace (defined
by structural recursion on the character list so that it evaluates inside
the kernel). -/
def pyStrip (s : String) : String :=
  String.mk (dropWhitespace (dropWhitespace s.data.reverse).reverse)

/-- `add_location`: prompt for an address then a radius.  An unclicked or
empty address aborts silently; a radius that fails `int(...)` or is `<= 0`
aborts with an alert; otherwise the zone is appended, its geocoding is
requested, and the settings file is saved.  `radiusParse` is the outcome of
`int(radius_response.text.strip())` (`none` models `ValueError`).  Returns
the state, the alert messages shown, and the geocode requests fired. -/
def add_location (st : AppState) (addressClicked : Bool) (addressText : String)
    (radiusClicked : Bool) (radiusParse : Option Int) :
    AppState × List String × List String :=
  if addressClicked = false ∨ pyStrip addressText = "" then (st, [], [])
  else
    let address := pyStrip addressText
    if radiusClicked then
      match radiusParse with
      | none => (st, ["Radius must be a number"], [])
      | some radius =>
          if radius ≤ 0 then (st, ["Radius must be a positive number"], [])
          else
            let locs := st.target_locations ++ [⟨address, radius⟩]
            let st1 := { st with target_locations := locs }
            (save_target_locations st1, [], [address])
    else (st, [], [])

/-- The `Delete` branch of `edit_location`: drop the zone's cached coordinate
and its list entry, then save. -/
def delete_location (st : AppState) (index : Nat) : AppState :=
  match st.target_locations[index]? with
  | none => st
  | some loc =>
      let coords := dictErase st.target_location_coords loc.address
      let st1 := { st with target_location_coords := coords }
      let st2 := { st1 with target_locations := st1.target_locations.eraseIdx index }
      save_target_locations st2

/-- `set_interval_action`: accept the selected interval only when it is at
least 60 seconds, then save; otherwise alert and change nothing.  Returns the
state and the alert messages shown. -/
def set_interval_action (st : AppState) (seconds : Int) :
    AppState × List String :=
  if seconds ≥ 60 then
    (save_target_locations { st with location_check_interval := seconds }, [])
  else (st, ["Interval must be at least 1 minute for optimal battery life."])

/-- A sequence of position updates processed by the delegate, each one running
`check_target_locations`; collects all commands issued. -/
def run_updates (dist : DistFn) (st : AppState) :
    List (ℚ × ℚ) → AppState × List Cmd
  | [] => (st, [])
  | p :: ps =>
      let r := check_target_locations dist st p.1 p.2
      let rest := run_updates dist r.state ps
      (rest.1, r.cmds ++ rest.2)

/-! ## Helper lemmas -/

/-- An inactive engine performs one evaluation cycle as a no-op. -/
theorem check_target_locations_of_inactive (dist : DistFn) (st : AppState)
    (lat lon : ℚ) (h : st.is_active = false) :
    check_target_locations dist st lat lon = ⟨st, [], []⟩ := by
  unfold check_target_locations
  simp [h]

/-- A scan over the empty zone list never reports "inside". -/
theorem scan_zones_nil (dist : DistFn) (coords : CoordMap) (lat lon : ℚ) :
    scan_zones dist coords lat lon [] = (false, []) := rfl

/-! ## Claim theorems -/

/-- Claim C1 (counterexample): starting from `is_muted = true`, a manual
unmute does not leave `isMuted = false` immediately after the toggle returns —
`manual_mute_toggle` never writes `is_muted`, so the flag still reads true. -/
theorem c1_counterexample :
    ¬ ((manual_mute_toggle { initState with is_muted := true }).1.is_muted
        = false) := by
  decide

/-- Claim C1 (amended): the manual mute toggle issues the unmute command when
`is_muted` is true and the mute command when it is false, directly to the
audio controller and bypassing zone logic, but it leaves the application
state — `is_muted` included — unchanged. -/
theorem c1_manual_toggle_emits_without_flip (st : AppState) :
    manual_mute_toggle st
      = (st, [if st.is_muted then Cmd.unmute else Cmd.mute]) := by
  unfold manual_mute_toggle
  cases h : st.is_muted <;> simp

/-- Claim C2 (code evaluation at the failing input): after the only zone
"Home" is deleted via the Delete branch of `edit_location`, a late geocode
success for "Home" still inserts its coordinate into
`target_location_coords` — the completion handler performs no staleness
check against the current zone list. -/
theorem c2_stale_geocode_inserted :
    dictLookup (geocode_callback distConst
        (delete_location { initState with target_locations := [⟨"Home", 100⟩] } 0)
        "Home" (GeocodeOutcome.success 48 11)).state.target_location_coords
      "Home" = some (48, 11) := by
  decide

/-- Claim C4: one run of the mute-state reconciliation issues no audio
command, overwrites `is_muted` with the observed system value, and leaves
every other component of the engine state except the toggle label unchanged
(`inside_target_zone`, the zone list, the coordinate map, the interval, the
active flag, the current location, the status label and the settings file). -/
theorem c4_mute_sync_reconciles (st : AppState) (system_muted : Bool) :
    (mute_sync_callback st system_muted).2 = [] ∧
    (mute_sync_callback st system_muted).1.is_muted = system_muted ∧
    (mute_sync_callback st system_muted).1.is_active = st.is_active ∧
    (mute_sync_callback st system_muted).1.inside_target_zone
      = st.inside_target_zone ∧
    (mute_sync_callback st system_muted).1.current_location
      = st.current_location ∧
    (mute_sync_callback st system_muted).1.target_locations
      = st.target_locations ∧
    (mute_sync_callback st system_muted).1.target_location_coords
      = st.target_location_coords ∧
    (mute_sync_callback st system_muted).1.location_check_interval
      = st.location_check_interval ∧
    (mute_sync_callback st system_muted).1.status_item_title
      = st.status_item_title ∧
    (mute_sync_callback st system_muted).1.saved_file = st.saved_file := by
  unfold mute_sync_callback
  by_cases h : st.is_muted = system_muted <;> simp [h]

/-- Claim C6: while `is_active` is false, processing any sequence of position
updates issues no audio command and leaves the state unchanged. -/
theorem c6_inactive_no_transitions (dist : DistFn) (st : AppState)
    (h : st.is_active = false) (ps : List (ℚ × ℚ)) :
    run_updates dist st ps = (st, []) := by
  induction ps with
  | nil => rfl
  | cons p ps ih =>
      unfold run_updates
      rw [check_target_locations_of_inactive dist st p.1 p.2 h]
      simp [ih]

/-- Claim C6 (witness): the inactive initial state processes two position
updates without any command or state change. -/
theorem c6_witness :
    run_updates distConst initState [(0, 0), (1, 1)] = (initState, []) :=
  c6_inactive_no_transitions distConst initState rfl [(0, 0), (1, 1)]

/-- Claim C7: loading a settings file that is a bare array of locations from
the freshly initialised state populates the zone list from the array and
leaves `is_active = false` and the check interval at the `__init__` default
of 300 seconds. -/
theorem c7_legacy_list_load (locs : List TargetZone) :
    (load_target_locations initState (SettingsData.list locs)).1.target_locations
      = locs ∧
    (load_target_locations initState (SettingsData.list locs)).1.is_active
      = false ∧
    (load_target_locations initState
        (SettingsData.list locs)).1.location_check_interval = 300 := by
  simp [load_target_locations, initState]

/-- Claim C9: with an empty zone list, one evaluation cycle returns the state
unchanged and issues no command and no geocode request, whatever the activity
and mute flags — in particular a muted Mac with zero zones is never
automatically unmuted. -/
theorem c9_empty_zone_list_noop (dist : DistFn) (st : AppState) (lat lon : ℚ)
    (h : st.target_locations = []) :
    check_target_locations dist st lat lon = ⟨st, [], []⟩ := by
  unfold check_target_locations
  by_cases ha : st.is_active = false <;> simp [ha, h]

/-- Claim C9 (witness): an active, muted state with zero zones survives a
position update with no unmute command. -/
theorem c9_witness :
    check_target_locations distConst
        { initState with is_active := true, is_muted := true } 0 0
      = ⟨{ initState with is_active := true, is_muted := true }, [], []⟩ :=
  c9_empty_zone_list_noop distConst
    { initState with is_active := true, is_muted := true } 0 0 rfl

/-- Claim C10: a dict-format settings object without a `check_interval` key
loads the interval as 30 seconds; a present `check_interval` value is adopted
unchanged, whatever its size; and the interactive interval selection rejects
any value below 60 seconds with an alert and no state change. -/
theorem c10_interval_load_and_minimum (st : AppState)
    (locations : Option (List TargetZone)) (act : Option Bool) :
    ((load_target_locations st
        (SettingsData.dict locations (some ⟨none, act⟩))).1.location_check_interval
      = 30) ∧
    (∀ v : Int, (load_target_locations st
        (SettingsData.dict locations (some ⟨some v, act⟩))).1.location_check_interval
      = v) ∧
    (∀ s : Int, s < 60 → set_interval_action st s
      = (st, ["Interval must be at least 1 minute for optimal battery life."])) := by
  refine ⟨?_, ?_, ?_⟩
  · simp only [load_target_locations, update_status, Option.getD_some]
    split <;> rfl
  · intro v
    simp only [load_target_locations, update_status, Option.getD_some]
    split <;> rfl
  · intro s hs
    unfold set_interval_action
    rw [if_neg (by omega)]

/-- Claim C10 (witness): loading a settings object with no `check_interval`
gives 30; a stored value of 45 (below the minimum) is adopted unchanged; and
selecting 30 seconds interactively is rejected without mutating the state. -/
theorem c10_witness :
    ((load_target_locations initState
        (SettingsData.dict none (some ⟨none, none⟩))).1.location_check_interval
      = 30) ∧
    ((load_target_locations initState
        (SettingsData.dict none (some ⟨some 45, none⟩))).1.location_check_interval
      = 45) ∧
    (set_interval_action initState 30
      = (initState,
          ["Interval must be at least 1 minute for optimal battery life."])) := by
  obtain ⟨h1, h2, h3⟩ := c10_interval_load_and_minimum initState none none
  exact ⟨h1, h2 45, h3 30 (by decide)⟩

/-- Claim C5: the membership scan reports "inside" exactly when some zone
with a resolved coordinate is within its radius of the position (`<=`, so a
point exactly at `radius` meters is inside and one at `radius + 1` is
outside), and a first zone already satisfying its radius short-circuits the
loop: the scan returns immediately, visiting no later zone and firing no
geocode request. -/
theorem c5_zone_membership (dist : DistFn) (coords : CoordMap) (lat lon : ℚ) :
    (∀ zones : List TargetZone,
      ((scan_zones dist coords lat lon zones).1 = true ↔
        ∃ z ∈ zones, ∃ p, dictLookup coords z.address = some p ∧
          dist lat lon p.1 p.2 ≤ (z.radius : ℚ))) ∧
    (∀ (z : TargetZone) (rest : List TargetZone) (p : ℚ × ℚ),
      dictLookup coords z.address = some p →
      dist lat lon p.1 p.2 ≤ (z.radius : ℚ) →
      scan_zones dist coords lat lon (z :: rest) = (true, [])) ∧
    (∀ (z : TargetZone) (p : ℚ × ℚ),
      dictLookup coords z.address = some p →
      (dist lat lon p.1 p.2 = (z.radius : ℚ) →
        (scan_zones dist coords lat lon [z]).1 = true) ∧
      (dist lat lon p.1 p.2 = (z.radius : ℚ) + 1 →
        (scan_zones dist coords lat lon [z]).1 = false)) := by
  have hmem : ∀ zones : List TargetZone,
      (scan_zones dist coords lat lon zones).1 = true ↔
        ∃ z ∈ zones, ∃ p, dictLookup coords z.address = some p ∧
          dist lat lon p.1 p.2 ≤ (z.radius : ℚ) := by
    intro zones
    induction zones with
    | nil => simp [scan_zones]
    | cons t rest ih =>
        match hl : dictLookup coords t.address with
        | none =>
            simp only [scan_zones, hl]
            constructor
            · intro hr
              rcases ih.mp hr with ⟨z, hz, hp⟩
              exact ⟨z, List.mem_cons_of_mem t hz, hp⟩
            · rintro ⟨z, hz, p, hp, hd⟩
              rcases List.mem_cons.mp hz with rfl | hz2
              · rw [hl] at hp
                cases hp
              · exact ih.mpr ⟨z, hz2, p, hp, hd⟩
        | some (plat, plon) =>
            by_cases hd : dist lat lon plat plon ≤ (t.radius : ℚ)
            · simp only [scan_zones, hl, if_pos hd]
              constructor
              · intro _
                exact ⟨t, List.mem_cons_self t rest, (plat, plon), hl, hd⟩
              · intro _
                trivial
            · simp only [scan_zones, hl, if_neg hd]
              rw [ih]
              constructor
              · rintro ⟨z, hz, hp⟩
                exact ⟨z, List.mem_cons_of_mem t hz, hp⟩
              · rintro ⟨z, hz, p, hp, hdz⟩
                rcases List.mem_cons.mp hz with rfl | hz2
                · rw [hl, Option.some.injEq] at hp
                  rw [← hp] at hdz
                  exact absurd hdz hd
                · exact ⟨z, hz2, p, hp, hdz⟩
  refine ⟨hmem, ?_, ?_⟩
  · intro z rest p hp hd
    obtain ⟨plat, plon⟩ := p
    have hd2 : dist lat lon plat plon ≤ (z.radius : ℚ) := hd
    simp only [scan_zones, hp, if_pos hd2]
  · intro z p hp
    obtain ⟨plat, plon⟩ := p
    constructor
    · intro he
      have hd : dist lat lon plat plon ≤ (z.radius : ℚ) := le_of_eq he
      simp [scan_zones, hp, hd]
    · intro he
      have he2 : dist lat lon plat plon = (z.radius : ℚ) + 1 := he
      have hd : ¬ dist lat lon plat plon ≤ (z.radius : ℚ) := by
        rw [he2]
        intro hab
        linarith
      simp [scan_zones, hp, hd]

/-- Claim C5 (witness): a single resolved zone at distance 0 of the position
is matched immediately: the scan returns inside with no geocode request. -/
theorem c5_witness :
    scan_zones distConst [("Office", (1, 2))] 0 0 [⟨"Office", 100⟩]
      = (true, []) :=
  (c5_zone_membership distConst [("Office", (1, 2))] 0 0).2.1
    ⟨"Office", 100⟩ [] (1, 2) (by decide) (by decide)

/-- Claim C3: with the engine active, a cycle whose scan computes
"inside" while `is_muted` is false issues exactly the mute command and ends
with `is_muted = true`, and a second cycle on the resulting state issues no
command; symmetrically, a cycle whose scan computes "outside" while
`is_muted` is true issues exactly the unmute command, ends with
`is_muted = false`, and a repeat cycle issues no command. -/
theorem c3_self_correction (dist : DistFn) (st : AppState) (lat lon : ℚ)
    (hact : st.is_active = true) :
    ((scan_zones dist st.target_location_coords lat lon st.target_locations).1
        = true →
      st.is_muted = false →
      (check_target_locations dist st lat lon).cmds = [Cmd.mute] ∧
      (check_target_locations dist st lat lon).state.is_muted = true ∧
      (check_target_locations dist
        (check_target_locations dist st lat lon).state lat lon).cmds = []) ∧
    (st.target_locations ≠ [] →
      (scan_zones dist st.target_location_coords lat lon st.target_locations).1
        = false →
      st.is_muted = true →
      (check_target_locations dist st lat lon).cmds = [Cmd.unmute] ∧
      (check_target_locations dist st lat lon).state.is_muted = false ∧
      (check_target_locations dist
        (check_target_locations dist st lat lon).state lat lon).cmds = []) := by
  constructor
  · intro hscan hmut
    have hne : st.target_locations ≠ [] := by
      intro he
      rw [he, scan_zones_nil] at hscan
      simp at hscan
    have h1 : check_target_locations dist st lat lon =
        ⟨{ st with
             inside_target_zone := true
             is_muted := true
             mute_item_title := "🔊 Unmute Mac" },
          [Cmd.mute],
          (scan_zones dist st.target_location_coords lat lon
            st.target_locations).2⟩ := by
      unfold check_target_locations auto_mute
      simp [hact, hne, hscan, hmut, mute_title]
    refine ⟨by rw [h1], by rw [h1], ?_⟩
    rw [h1]
    unfold check_target_locations
    simp [hact, hne, hscan]
  · intro hne hscan hmut
    have h1 : check_target_locations dist st lat lon =
        ⟨{ st with
             inside_target_zone := false
             is_muted := false
             mute_item_title := "🔇 Mute Mac" },
          [Cmd.unmute],
          (scan_zones dist st.target_location_coords lat lon
            st.target_locations).2⟩ := by
      unfold check_target_locations auto_mute
      simp [hact, hne, hscan, hmut, mute_title]
    refine ⟨by rw [h1], by rw [h1], ?_⟩
    rw [h1]
    unfold check_target_locations
    simp [hact, hne, hscan]

/-- The active, unmuted state with a single resolved zone containing the
position, used to instantiate the self-correction theorem. -/
def stInside : AppState :=
  { initState with
      is_active := true
      target_locations := [⟨"Office", 100⟩]
      target_location_coords := [("Office", (1, 2))] }

/-- Claim C3 (witness): on a concrete active, unmuted state inside its only
zone, the cycle issues exactly one mute command, ends muted, and a repeat
cycle issues nothing. -/
theorem c3_witness :
    (check_target_locations distConst stInside 0 0).cmds = [Cmd.mute] ∧
    (check_target_locations distConst stInside 0 0).state.is_muted = true ∧
    (check_target_locations distConst
      (check_target_locations distConst stInside 0 0).state 0 0).cmds = [] :=
  (c3_self_correction distConst stInside 0 0 (by decide)).1 (by decide) (by decide)

/-- Claim C8 (counterexample): on an empty address, `add_location` returns
silently — no user-facing message is shown — so the claim "rejected with a
user-facing message" fails there (the no-mutation half does hold). -/
theorem c8_counterexample :
    ¬ ((add_location initState true "" true (some 100)).2.1 ≠ [] ∧
       (add_location initState true "" true (some 100)).1 = initState) := by
  decide

/-- Claim C8 (amended): on any invalid input — empty (or cancelled) address,
non-numeric radius, or non-positive radius — `add_location` leaves the whole
state (zone list, coordinate map and settings file) unchanged and fires no
geocode request; a radius that is non-numeric or non-positive is rejected
with a user-facing message, while an empty address aborts silently. -/
theorem c8_invalid_input_atomic (st : AppState)
    (addressClicked radiusClicked : Bool) (addressText : String)
    (radiusParse : Option Int)
    (h : pyStrip addressText = "" ∨
      (radiusClicked = true ∧
        (radiusParse = none ∨ ∃ r, radiusParse = some r ∧ r ≤ 0))) :
    (add_location st addressClicked addressText radiusClicked radiusParse).1
      = st ∧
    (add_location st addressClicked addressText radiusClicked radiusParse).2.2
      = [] ∧
    (addressClicked = true → pyStrip addressText ≠ "" →
      (add_location st addressClicked addressText radiusClicked radiusParse).2.1
        ≠ []) := by
  by_cases hA : addressClicked = false ∨ pyStrip addressText = ""
  · refine ⟨?_, ?_, ?_⟩
    · simp [add_location, hA]
    · simp [add_location, hA]
    · intro hc hne
      rcases hA with hA | hA
      · rw [hc] at hA
        exact absurd hA (by decide)
      · exact absurd hA hne
  · push_neg at hA
    obtain ⟨hc, hne⟩ := hA
    rcases h with h | ⟨hrc, hr⟩
    · exact absurd h hne
    · have hA2 : ¬ (addressClicked = false ∨ pyStrip addressText = "") := by
        push_neg
        exact ⟨hc, hne⟩
      rcases hr with hr | ⟨r, hr, hle⟩
      · refine ⟨?_, ?_, fun _ _ => ?_⟩ <;>
          simp [add_location, hA2, hrc, hr]
      · refine ⟨?_, ?_, fun _ _ => ?_⟩ <;>
          simp [add_location, hA2, hrc, hr, hle]

/-- Claim C8 (witness): adding a zone with address "X" and radius 0 leaves
the state unchanged, fires no geocode request, and shows an alert. -/
theorem c8_witness :
    (add_location initState true "X" true (some 0)).1 = initState ∧
    (add_location initState true "X" true (some 0)).2.2 = [] ∧
    (add_location initState true "X" true (some 0)).2.1 ≠ [] := by
  have h := c8_invalid_input_atomic initState true true "X" (some 0)
    (Or.inr ⟨rfl, Or.inr ⟨0, rfl, le_refl 0⟩⟩)
  exact ⟨h.1, h.2.1, h.2.2 rfl (by decide)⟩
